import Mathlib

/-!
Verification of the eagleeye unified multi-source search orchestration layer.

The Python sources are shallowly embedded:
* strings are Lean `String`s, Python slicing `s[:n]` is `strTake n s`,
  Python substring test `a in b` is `strContains b a`;
* the network boundary of every adapter is a parameter of type
  `Except String payload`: `.error e` is the backend call raising an
  exception `e`, `.ok p` is the decoded payload;
* Python `try ... except Exception` around the whole adapter body is the
  `match` on that `Except` value;
* the thread pool of `EagleEyeBot._unified_search` is embedded by an
  explicit `completion_order` list modelling the order in which
  `concurrent.futures.as_completed` yields the per-source futures;
* the async message stream consumed by `ClaudeSearchAgent.search` is a
  `List AgentMessage`, and a stream that raises is represented by an
  `Option String` terminal error.
-/

/-- Python `s[:n]` on a `str`: the first `n` characters. -/
def strTake (n : Nat) (s : String) : String :=
  String.mk (s.toList.take n)

/-- Bool test that `needle` occurs as a contiguous sublist of the second list. -/
def hasSublist (needle : List Char) : List Char → Bool
  | [] => needle.isEmpty
  | c :: rest => List.isPrefixOf needle (c :: rest) || hasSublist needle rest

/-- Python `needle in haystack` on `str`: substring containment. -/
def strContains (haystack needle : String) : Bool :=
  hasSublist needle.toList haystack.toList

/-- Python `s.lower()` (character-wise; the Korean keywords have no case). -/
def strToLower (s : String) : String :=
  String.mk (s.toList.map Char.toLower)

/-! ## Result model — src/eagleeye/models/search.py -/

/-- `SearchResultType` enumeration (src/eagleeye/models/search.py lines 9-14). -/
inductive SearchResultType where
  | SLACK
  | NOTION
  | LINEAR
deriving DecidableEq, Repr

/-- `SearchResult` pydantic model (src/eagleeye/models/search.py lines 17-26).
`extra` (a `dict[str, str] | None`) is an optional association list. -/
structure SearchResult where
  source : SearchResultType
  title : String
  url : String
  snippet : String
  timestamp : Option String := none
  author : Option String := none
  extra : Option (List (String × String)) := none
deriving DecidableEq, Repr

/-! ## Relevance filter — src/claude_agent.py lines 39-79 -/

/-- `SERVER_KEYWORDS` table (src/claude_agent.py lines 39-54). -/
def SERVER_KEYWORDS : List (String × List String) :=
  [ ("slack",
      ["slack", "채널", "channel", "메시지", "message", "대화", "conversation"]),
    ("notion",
      ["notion", "노션", "문서", "document", "페이지", "page", "wiki"]),
    ("linear",
      ["linear", "리니어", "이슈", "issue", "티켓", "ticket",
       "버그", "bug", "태스크", "task"]),
    ("github",
      ["github", "깃허브", "코드", "code", "pr", "pull request",
       "커밋", "commit", "레포", "repo"]) ]

/-- The inner loop of `detect_relevant_servers` with its `break`: does some
keyword of the list occur in the lower-cased query? -/
def keywordMatches (query : String) (keywords : List String) : Bool :=
  keywords.any fun keyword => strContains (strToLower query) keyword

/-- `detect_relevant_servers` (src/claude_agent.py lines 57-79).  The Python
set of server names is represented as a duplicate-free list in table order. -/
def detect_relevant_servers (query : String) : List String :=
  let relevant :=
    (SERVER_KEYWORDS.filter fun p => keywordMatches query p.2).map Prod.fst
  if relevant = [] then SERVER_KEYWORDS.map Prod.fst else relevant

/-! ## Linear adapter — src/eagleeye/integrations/linear.py lines 45-82 -/

/-- One node of the `searchIssues` GraphQL payload.  `description` is
`Option` because the API returns explicit `null` descriptions
(`issue.get("description", "") or ""` in the source); `assignee` and
`state` hold the flat `name` of the nested object when present. -/
structure LinearIssue where
  identifier : String := ""
  title : String := ""
  url : String := ""
  description : Option String := none
  assignee : Option String := none
  state : Option String := none
deriving DecidableEq, Repr

/-- `LinearClient.search` (src/eagleeye/integrations/linear.py lines 45-82).
`backend` is the outcome of the HTTP POST + decode: `.error e` is any
exception inside the `try` block, caught by `except Exception` which logs
and falls through to `return results` with `results = []`. -/
def LinearClient.search (backend : Except String (List LinearIssue))
    (query : String) (limit : Nat) : List SearchResult :=
  match backend with
  | .error _ => []
  | .ok issues =>
    (issues.take limit).map fun issue =>
      { source := .LINEAR
        title := "[" ++ issue.identifier ++ "] " ++ issue.title
        url := issue.url
        snippet := strTake 200 (issue.description.getD "")
        author := issue.assignee
        extra := issue.state.map fun name => [("status", name)] }

/-! ## Notion adapter — src/eagleeye/integrations/notion.py -/

/-- A `rich_text`/`title` fragment; `plain_text` defaults to `""`
(`.get("plain_text", "")` in the source). -/
structure NotionRichText where
  plain_text : String := ""
deriving DecidableEq, Repr

/-- A property value of a Notion item, keyed by its `type` tag. -/
structure NotionProp where
  type : String := ""
  title : List NotionRichText := []
  rich_text : List NotionRichText := []
deriving DecidableEq, Repr

/-- A Notion search result item.  `properties` is the property dict as an
association list; `top_title` is the top-level `"title"` key used as the
fallback in `_extract_title`. -/
structure NotionItem where
  object : Option String := none
  id : String := ""
  url : Option String := none
  properties : List (String × NotionProp) := []
  top_title : Option (List NotionRichText) := none
deriving DecidableEq, Repr

/-- Python `prop_name in properties` / `properties[prop_name]` on the dict. -/
def lookupProp (properties : List (String × NotionProp)) (prop_name : String) :
    Option NotionProp :=
  (properties.find? fun p => p.1 == prop_name).map Prod.snd

/-- One iteration of the `_extract_title` loop: returns the title text when
the property exists, has `type == "title"` and a non-empty list. -/
def titleFromProp (properties : List (String × NotionProp)) (prop_name : String) :
    Option String :=
  match lookupProp properties prop_name with
  | none => none
  | some prop =>
    if prop.type == "title" then
      match prop.title with
      | t :: _ => some t.plain_text
      | [] => none
    else none

/-- `NotionSearchClient._extract_title` (src/eagleeye/integrations/notion.py
lines 54-75). -/
def NotionSearchClient.extract_title (item : NotionItem) : String :=
  match ["title", "Title", "Name", "name"].findSome?
      (titleFromProp item.properties) with
  | some t => t
  | none =>
    match item.top_title with
    | some (t :: _) => t.plain_text
    | _ => ""

/-- One iteration of the `_extract_snippet` loop. -/
def snippetFromProp (properties : List (String × NotionProp)) (prop_name : String) :
    Option String :=
  match lookupProp properties prop_name with
  | none => none
  | some prop =>
    if prop.type == "rich_text" then
      match prop.rich_text with
      | t :: _ => some (strTake 200 t.plain_text)
      | [] => none
    else none

/-- `NotionSearchClient._extract_snippet` (src/eagleeye/integrations/notion.py
lines 77-91). -/
def NotionSearchClient.extract_snippet (item : NotionItem) : String :=
  (["Description", "description", "Content", "content"].findSome?
      (snippetFromProp item.properties)).getD ""

/-- Python `id.replace("-", "")`. -/
def stripDashes (s : String) : String :=
  String.mk (s.toList.filter fun c => !(c == '-'))

/-- `NotionSearchClient.search` (src/eagleeye/integrations/notion.py lines
20-52).  `backend` is the outcome of `self.client.search(...)`, with
`.error` caught by the `except Exception` block yielding `[]`. -/
def NotionSearchClient.search (backend : Except String (List NotionItem))
    (query : String) (limit : Nat) : List SearchResult :=
  match backend with
  | .error _ => []
  | .ok items =>
    (items.take limit).map fun item =>
      let title := NotionSearchClient.extract_title item
      { source := .NOTION
        title := if title = "" then "Untitled" else title
        url := item.url.getD ("https://notion.so/" ++ stripDashes item.id)
        snippet := NotionSearchClient.extract_snippet item
        extra := item.object.map fun t => [("type", t)] }

/-! ## Slack adapter — src/eagleeye/integrations/slack_search.py lines 20-51 -/

/-- One entry of `response["messages"]["matches"]`; `channel_name` is the
flattened `msg.get("channel", {}).get("name", "unknown")`. -/
structure SlackMessageItem where
  permalink : Option String := none
  text : Option String := none
  username : Option String := none
  ts : Option String := none
  channel_name : Option String := none
deriving DecidableEq, Repr

/-- `SlackSearchClient.search` (src/eagleeye/integrations/slack_search.py
lines 20-51).  `backend` is the outcome of `self.client.search_messages`;
`.error` is caught by the `except Exception` block yielding `[]`. -/
def SlackSearchClient.search (backend : Except String (List SlackMessageItem))
    (query : String) (limit : Nat) : List SearchResult :=
  match backend with
  | .error _ => []
  | .ok messages =>
    (messages.take limit).map fun msg =>
      let ts := msg.ts.getD ""
      { source := .SLACK
        title := "#" ++ msg.channel_name.getD "unknown"
        url := msg.permalink.getD ""
        snippet := strTake 200 (msg.text.getD "")
        author := some (msg.username.getD "unknown")
        timestamp := if ts = "" then none else some ((ts.splitOn ".").headD ts) }

/-! ## MCP result mapping — src/mcp_integration/client.py lines 352-380 -/

/-- A loosely-typed result item as handed to `MCPSearchClient._parse_item`.
Every field is `Option` (absent key = `none`); author/assignee objects are
already flattened to their display name, mirroring the
`author.get("name", author.get("username", ...))` branch. -/
structure MCPItem where
  title : Option String := none
  name : Option String := none
  url : Option String := none
  permalink : Option String := none
  link : Option String := none
  snippet : Option String := none
  description : Option String := none
  text : Option String := none
  content : Option String := none
  author : Option String := none
  user : Option String := none
  assignee : Option String := none
  timestamp : Option String := none
  created_at : Option String := none
  ts : Option String := none
deriving DecidableEq, Repr

/-- `MCPSearchClient._parse_item` (src/mcp_integration/client.py lines
352-380).  The nested `item.get(...)` chains become `<|>` chains with the
documented final defaults; `str(x)[:200] if x else ""` and
`str(x) if x else None` keep their Python truthiness (empty string is
falsy). -/
def MCPSearchClient.parse_item (result_type : SearchResultType) (item : MCPItem) :
    Option SearchResult :=
  let title := (item.title <|> item.name).getD "Untitled"
  let url := (item.url <|> item.permalink <|> item.link).getD ""
  let raw_snippet :=
    (item.snippet <|> item.description <|> item.text <|> item.content).getD ""
  let snippet := if raw_snippet = "" then "" else strTake 200 raw_snippet
  let author := item.author <|> item.user <|> item.assignee
  let timestamp := item.timestamp <|> item.created_at <|> item.ts
  some
    { source := result_type
      title := title
      url := url
      snippet := snippet
      author :=
        match author with
        | some a => if a = "" then none else some a
        | none => none
      timestamp :=
        match timestamp with
        | some t => if t = "" then none else some t
        | none => none }

/-! ## Parallel orchestrator — src/eagleeye/app.py lines 150-194 -/

/-- `active_sources = sources if sources else {"slack", "notion", "linear"}`
(src/eagleeye/app.py line 167): both `None` and the empty set are falsy in
Python, so both fall back to the full default set. -/
def active_sources (sources : Option (List String)) : List String :=
  match sources with
  | none => ["slack", "notion", "linear"]
  | some s => if s = [] then ["slack", "notion", "linear"] else s

/-- The three `if "x" in active_sources` guards building `search_tasks`
(src/eagleeye/app.py lines 169-174), as the list of submitted source names
in construction order. -/
def build_search_tasks (active : List String) : List String :=
  (if "slack" ∈ active then ["slack"] else []) ++
  (if "notion" ∈ active then ["notion"] else []) ++
  (if "linear" ∈ active then ["linear"] else [])

/-- `EagleEyeBot._unified_search` (src/eagleeye/app.py lines 150-194).
`outcome s` is what `client.search(query, limit)` for source `s` does on
its worker thread: `.ok rs` returns results, `.error e` raises.
`completion_order` models the order in which `as_completed` yields the
futures; it is meaningful when it enumerates the submitted tasks exactly
once (a permutation of `build_search_tasks`).  The `try/except` around
`future.result()` is the `match`: a raising task is logged and contributes
nothing, and the function itself always returns a list (never raises). -/
def EagleEyeBot.unified_search (sources : Option (List String))
    (outcome : String → Except String (List SearchResult))
    (completion_order : List String) : List SearchResult :=
  let search_tasks := build_search_tasks (active_sources sources)
  if search_tasks = [] then []
  else
    completion_order.foldl
      (fun results source =>
        match outcome source with
        | .ok rs => results ++ rs
        | .error _ => results)
      []

/-! ## Streaming orchestrator — src/claude_agent.py lines 25-35, 82-92,
361-517 -/

/-- `SearchProgress` dataclass (src/claude_agent.py lines 25-31). -/
structure SearchProgress where
  status : String
  current_tool : Option String := none
  completed_tools : Option (List String) := none
deriving DecidableEq, Repr

/-- A content block of a streamed message: `ToolUseBlock` (with its tool
name), `ToolResultBlock`, or `TextBlock`. -/
inductive ContentBlock where
  | toolUse (name : String)
  | toolResult
  | textBlock (text : String)
deriving DecidableEq, Repr

/-- A streamed message: `AssistantMessage` or `ResultMessage`, each with its
`content` block list. -/
inductive AgentMessage where
  | assistant (content : List ContentBlock)
  | result (content : List ContentBlock)
deriving DecidableEq, Repr

/-- Python word character for the `\w+` of the tool-name regex (ASCII
alphanumeric or underscore; tool names are ASCII). -/
def wordChar (c : Char) : Bool := c.isAlphanum || c == '_'

/-- `extract_server_from_tool_name` (src/claude_agent.py lines 82-92):
`re.match(r"mcp__(\w+)__", tool_name)` anchored at the start, with the
greedy `\w+` capturing the longest word-character run still followed by
`"__"`. -/
def extract_server_from_tool_name (tool_name : String) : Option String :=
  let cs := tool_name.toList
  if List.isPrefixOf "mcp__".toList cs then
    let rest := cs.drop 5
    let candidates := (List.range (rest.length + 1)).filter fun i =>
      decide (0 < i) && (rest.take i).all wordChar &&
        List.isPrefixOf ['_', '_'] (rest.drop i)
    match candidates.getLast? with
    | some i => some (String.mk (rest.take i))
    | none => none
  else none

/-- The mutable loop state of `ClaudeSearchAgent.search` (src/claude_agent.py
lines 401-405), plus the list of `SearchProgress` values delivered to the
`on_progress` callback so far (the callback is modelled as present). -/
structure AgentState where
  final_response : String
  completed_servers : List String
  current_server : Option String
  progress : List SearchProgress
deriving DecidableEq, Repr

/-- `if current_server not in completed_servers: completed_servers.append(...)`
(src/claude_agent.py lines 443-446 and 489-490). -/
def markCompleted (completed : List String) (server : String) : List String :=
  if server ∈ completed then completed else completed ++ [server]

/-- Handling of one `ToolUseBlock` (src/claude_agent.py lines 430-465):
when the extracted server differs from the active one, the previous active
server is marked completed, the new one becomes active, and a `searching`
progress event carrying a snapshot of `completed_servers` is emitted. -/
def processToolUse (st : AgentState) (tool_name : String) : AgentState :=
  match extract_server_from_tool_name tool_name with
  | none => st
  | some server =>
    if st.current_server = some server then st
    else
      let completed :=
        match st.current_server with
        | some prev => markCompleted st.completed_servers prev
        | none => st.completed_servers
      { st with
        completed_servers := completed
        current_server := some server
        progress := st.progress ++
          [{ status := "searching", current_tool := some server,
             completed_tools := some completed }] }

/-- Handling of one `TextBlock` (src/claude_agent.py lines 484-496): the
text overwrites `final_response`; if a server is active it is marked
completed and a `consolidating` event with the snapshot is emitted. -/
def processTextBlock (st : AgentState) (text : String) : AgentState :=
  match st.current_server with
  | none => { st with final_response := text }
  | some cur =>
    let completed := markCompleted st.completed_servers cur
    { st with
      final_response := text
      completed_servers := completed
      progress := st.progress ++
        [{ status := "consolidating", completed_tools := some completed }] }

/-- The first per-block loop (only `ToolUseBlock` changes state;
`ToolResultBlock` is only logged). -/
def toolStep (st : AgentState) (b : ContentBlock) : AgentState :=
  match b with
  | .toolUse n => processToolUse st n
  | _ => st

/-- The second per-block loop (only `TextBlock` changes state). -/
def textStep (st : AgentState) (b : ContentBlock) : AgentState :=
  match b with
  | .textBlock t => processTextBlock st t
  | _ => st

/-- Handling of one streamed message (src/claude_agent.py lines 412-496):
an `AssistantMessage` runs the tool-block loop and then the text-block
loop over its content; a `ResultMessage` runs only the text-block loop. -/
def processMessage (st : AgentState) (m : AgentMessage) : AgentState :=
  match m with
  | .assistant content => content.foldl textStep (content.foldl toolStep st)
  | .result content => content.foldl textStep st

/-- State at loop entry; the `thinking` event has already been emitted
(src/claude_agent.py lines 382-383). -/
def initialAgentState : AgentState :=
  { final_response := ""
    completed_servers := []
    current_server := none
    progress := [{ status := "thinking" }] }

/-- The whole `async for message in query(...)` loop. -/
def runAgent (messages : List AgentMessage) : AgentState :=
  messages.foldl processMessage initialAgentState

/-- The localized fallback of src/claude_agent.py line 507. -/
def NO_RESULTS_MESSAGE : String := "검색 결과를 찾지 못했습니다."

/-- `ClaudeSearchAgent.search` (src/claude_agent.py lines 361-517).
`stream_error = some e` models the message stream raising `e`: the
`except Exception` block logs and re-`raise`s, so the caller sees
`.error e`.  On a completed stream the returned string is
`final_response or NO_RESULTS_MESSAGE` (line 507). -/
def ClaudeSearchAgent.search (messages : List AgentMessage)
    (stream_error : Option String) : Except String String :=
  match stream_error with
  | some e => .error e
  | none =>
    let st := runAgent messages
    .ok (if st.final_response = "" then NO_RESULTS_MESSAGE else st.final_response)

/-! ## Theorems -/

/-- Claim C3: `detect_relevant_servers` returns exactly the sources with a
trigger-keyword substring match against the lower-cased query; when no
keyword of any source matches it returns the full configured source set;
it is never empty. -/
theorem detect_relevant_servers_spec (query : String) :
    ((∃ p ∈ SERVER_KEYWORDS, keywordMatches query p.2 = true) →
      ∀ s, s ∈ detect_relevant_servers query ↔
        ∃ kws, (s, kws) ∈ SERVER_KEYWORDS ∧ keywordMatches query kws = true) ∧
    ((∀ p ∈ SERVER_KEYWORDS, keywordMatches query p.2 = false) →
      detect_relevant_servers query = SERVER_KEYWORDS.map Prod.fst) ∧
    detect_relevant_servers query ≠ [] := by
  have hcases :
      detect_relevant_servers query =
        (if (SERVER_KEYWORDS.filter fun p => keywordMatches query p.2).map Prod.fst
              = []
         then SERVER_KEYWORDS.map Prod.fst
         else (SERVER_KEYWORDS.filter fun p => keywordMatches query p.2).map
            Prod.fst) := rfl
  refine ⟨?_, ?_, ?_⟩
  · rintro ⟨p, hp, hm⟩ s
    have hne : (SERVER_KEYWORDS.filter fun p => keywordMatches query p.2).map
        Prod.fst ≠ [] := by
      intro h
      have hnil := List.map_eq_nil_iff.mp h
      have := List.filter_eq_nil_iff.mp hnil p hp
      simp [hm] at this
    rw [hcases, if_neg hne]
    constructor
    · intro hs
      obtain ⟨⟨s1, kws⟩, hmem, hfst⟩ := List.mem_map.mp hs
      obtain ⟨hK, hmatch⟩ := List.mem_filter.mp hmem
      subst hfst
      exact ⟨kws, hK, hmatch⟩
    · rintro ⟨kws, hmem, hmatch⟩
      exact List.mem_map.mpr ⟨(s, kws), List.mem_filter.mpr ⟨hmem, hmatch⟩, rfl⟩
  · intro hall
    have h0 : (SERVER_KEYWORDS.filter fun p => keywordMatches query p.2) = [] :=
      List.filter_eq_nil_iff.mpr fun a ha => by simp [hall a ha]
    rw [hcases, h0]
    simp
  · rw [hcases]
    by_cases h : (SERVER_KEYWORDS.filter fun p => keywordMatches query p.2).map
        Prod.fst = []
    · rw [if_pos h]; decide
    · rw [if_neg h]; exact h

/-- Witness for C3 at concrete queries: a matching query is characterized by
its keyword matches, and a keyword-free query falls back to the full set. -/
theorem detect_relevant_servers_spec_witness :
    ("slack" ∈ detect_relevant_servers "Find bug tickets" ↔
      ∃ kws, ("slack", kws) ∈ SERVER_KEYWORDS ∧
        keywordMatches "Find bug tickets" kws = true) ∧
    detect_relevant_servers "hello" = SERVER_KEYWORDS.map Prod.fst ∧
    detect_relevant_servers "hello" ≠ [] :=
  ⟨(detect_relevant_servers_spec "Find bug tickets").1 (by decide) "slack",
   (detect_relevant_servers_spec "hello").2.1 (by decide),
   (detect_relevant_servers_spec "hello").2.2⟩

/-- Claim C4: every concrete adapter catches a backend exception internally
and returns the empty list; the adapters are total functions into
`List SearchResult` (no exception channel in their return type), so no
backend failure reaches the caller. -/
theorem adapters_return_empty_on_backend_error (e query : String) (limit : Nat) :
    SlackSearchClient.search (.error e) query limit = [] ∧
    NotionSearchClient.search (.error e) query limit = [] ∧
    LinearClient.search (.error e) query limit = [] :=
  ⟨rfl, rfl, rfl⟩

/-- Claim C9: the Linear adapter with `limit = 1` over a payload of two
issues returns exactly one result, and its `author` is `none` when the
first issue has no assignee. -/
theorem linear_limit_one_no_assignee (query : String) (i1 i2 : LinearIssue)
    (h : i1.assignee = none) :
    (LinearClient.search (.ok [i1, i2]) query 1).length = 1 ∧
    ∀ r ∈ LinearClient.search (.ok [i1, i2]) query 1, r.author = none := by
  have hsearch : LinearClient.search (.ok [i1, i2]) query 1 =
      [{ source := .LINEAR
         title := "[" ++ i1.identifier ++ "] " ++ i1.title
         url := i1.url
         snippet := strTake 200 (i1.description.getD "")
         author := i1.assignee
         extra := i1.state.map fun name => [("status", name)] }] := rfl
  refine ⟨by rw [hsearch]; rfl, ?_⟩
  intro r hr
  rw [hsearch, List.mem_singleton] at hr
  subst hr
  exact h

/-- Issue payload entries mirroring tests/test_linear.py (`DEV-124` has no
assignee). -/
def linearIssueNoAssignee : LinearIssue :=
  { identifier := "DEV-124", title := "Add search feature" }

/-- Second payload issue, with an assignee. -/
def linearIssueAssigned : LinearIssue :=
  { identifier := "DEV-123", title := "Fix authentication bug",
    assignee := some "John Doe", state := some "In Progress" }

/-- Witness for C9 at a concrete two-issue payload. -/
theorem linear_limit_one_no_assignee_witness :
    (LinearClient.search (.ok [linearIssueNoAssignee, linearIssueAssigned])
        "search feature" 1).length = 1 ∧
    ∀ r ∈ LinearClient.search (.ok [linearIssueNoAssignee, linearIssueAssigned])
        "search feature" 1, r.author = none :=
  linear_limit_one_no_assignee "search feature" linearIssueNoAssignee
    linearIssueAssigned rfl

/-- Claim C1: with two active sources where one adapter raises and the other
returns `rs`, `_unified_search` returns exactly `rs`, whichever of the two
tasks completes first; the function is total into `List SearchResult`, so
no error reaches the caller. -/
theorem unified_search_partial_failure (e : String) (rs : List SearchResult)
    (outcome : String → Except String (List SearchResult))
    (completion_order : List String)
    (hfail : outcome "slack" = .error e)
    (hok : outcome "notion" = .ok rs)
    (horder : completion_order = ["slack", "notion"] ∨
      completion_order = ["notion", "slack"]) :
    EagleEyeBot.unified_search (some ["slack", "notion"]) outcome
      completion_order = rs := by
  rcases horder with h | h <;> subst h <;>
    simp [EagleEyeBot.unified_search, active_sources, build_search_tasks,
      hfail, hok]

/-- Sample normalized result used by the concrete orchestrator scenarios. -/
def sampleResult : SearchResult :=
  { source := .NOTION, title := "Project Documentation",
    url := "https://notion.so/page-123",
    snippet := "Documentation about the project" }

/-- Outcome family where the slack task raises and every other source
returns one result. -/
def slackFailsOutcome : String → Except String (List SearchResult) := fun s =>
  if s = "slack" then .error "API Error" else .ok [sampleResult]

/-- Witness for C1: slack raises, notion returns one result, and the search
returns exactly that result. -/
theorem unified_search_partial_failure_witness :
    EagleEyeBot.unified_search (some ["slack", "notion"]) slackFailsOutcome
      ["notion", "slack"] = [sampleResult] :=
  unified_search_partial_failure "API Error" [sampleResult] slackFailsOutcome
    ["notion", "slack"] (by simp [slackFailsOutcome])
    (by simp [slackFailsOutcome]) (Or.inr rfl)

/-- Outcome family where every source task returns one result. -/
def allOkOutcome : String → Except String (List SearchResult) := fun _ =>
  .ok [sampleResult]

/-- Counterexample to claim C2 as stated: with `sources` the explicit empty
set, Python falsiness makes `_unified_search` fall back to all three
sources (src/eagleeye/app.py line 167, docstring "empty/None = all", and
test `test_unified_search_empty_sources_searches_all`): all three tasks
are built and their three results are returned, not `[]`. -/
theorem unified_search_empty_set_counterexample :
    build_search_tasks (active_sources (some [])) =
      ["slack", "notion", "linear"] ∧
    EagleEyeBot.unified_search (some []) allOkOutcome
      ["slack", "notion", "linear"] = [sampleResult, sampleResult, sampleResult] :=
  ⟨rfl, rfl⟩

/-- Claim C2 amended: `sources = {}` (explicit empty set) behaves exactly
like `sources = None` — it falls back to all three configured sources; the
immediate `[]` return with no spawned task happens only for a non-empty
`sources` set containing none of slack/notion/linear. -/
theorem unified_search_empty_set_amended
    (outcome : String → Except String (List SearchResult))
    (completion_order : List String) (srcs : List String)
    (hne : srcs ≠ []) (h1 : "slack" ∉ srcs) (h2 : "notion" ∉ srcs)
    (h3 : "linear" ∉ srcs) :
    EagleEyeBot.unified_search (some []) outcome completion_order =
      EagleEyeBot.unified_search none outcome completion_order ∧
    build_search_tasks (active_sources (some srcs)) = [] ∧
    EagleEyeBot.unified_search (some srcs) outcome completion_order = [] := by
  refine ⟨rfl, ?_, ?_⟩
  · simp [build_search_tasks, active_sources, hne, h1, h2, h3]
  · simp [EagleEyeBot.unified_search, build_search_tasks, active_sources,
      hne, h1, h2, h3]

/-- Witness for the amended C2 at concrete inputs (`srcs = ["github"]` is a
non-empty filter recognizing no configured source). -/
theorem unified_search_empty_set_amended_witness :
    EagleEyeBot.unified_search (some []) allOkOutcome ["slack"] =
      EagleEyeBot.unified_search none allOkOutcome ["slack"] ∧
    build_search_tasks (active_sources (some ["github"])) = [] ∧
    EagleEyeBot.unified_search (some ["github"]) allOkOutcome ["slack"] = [] :=
  unified_search_empty_set_amended allOkOutcome ["slack"] ["github"]
    (by decide) (by decide) (by decide) (by decide)

/-- The 300-character snippet source value of the C8 scenario. -/
def longSnippetItem : MCPItem := { snippet := some (String.mk (List.replicate 300 'a')) }

set_option maxRecDepth 8192 in
/-- Counterexample to claim C8 as stated: the mapping layer caps a
300-character snippet to its plain 200-character prefix and appends no
truncation marker of any kind — the produced snippet consists of the 200
copies of the source character only (`str(raw_snippet)[:200]` in
src/mcp_integration/client.py line 363; `description[:200]` in
src/eagleeye/integrations/linear.py line 74). -/
theorem parse_item_no_truncation_marker :
    MCPSearchClient.parse_item .NOTION longSnippetItem =
      some { source := .NOTION, title := "Untitled", url := "",
             snippet := String.mk (List.replicate 200 'a') } ∧
    (String.mk (List.replicate 200 'a')).toList.all (fun c => c == 'a') = true ∧
    strContains (String.mk (List.replicate 200 'a')) "..." = false ∧
    strContains (String.mk (List.replicate 200 'a')) "…" = false := by
  refine ⟨?_, by decide, by decide, by decide⟩
  decide

/-- Claim C8 amended: every snippet produced by the mapping layer is capped
at 200 characters as a plain prefix (no truncation marker); a 300-character
source value yields exactly its first 200 characters. -/
theorem snippet_capped_at_200 :
    (∀ (rt : SearchResultType) (item : MCPItem) (r : SearchResult),
      MCPSearchClient.parse_item rt item = some r → r.snippet.length ≤ 200) ∧
    (∀ (backend : Except String (List LinearIssue)) (query : String)
      (limit : Nat) (r : SearchResult),
      r ∈ LinearClient.search backend query limit → r.snippet.length ≤ 200) ∧
    (∀ (s : String), s.length = 300 →
      ∀ (rt : SearchResultType) (r : SearchResult),
        MCPSearchClient.parse_item rt { snippet := some s } = some r →
        r.snippet = strTake 200 s ∧ r.snippet.length = 200) := by
  have hlen : ∀ (n : Nat) (s : String), (strTake n s).length = min n s.length := by
    intro n s
    show (s.toList.take n).length = min n s.length
    rw [List.length_take]
    rfl
  refine ⟨?_, ?_, ?_⟩
  · intro rt item r hr
    rw [MCPSearchClient.parse_item] at hr
    cases hr
    simp only
    split
    · simp
    · rw [hlen]; exact Nat.min_le_left _ _
  · intro backend query limit r hr
    match backend with
    | .error e => simp [LinearClient.search] at hr
    | .ok issues =>
      rw [LinearClient.search] at hr
      obtain ⟨issue, _, rfl⟩ := List.mem_map.mp hr
      simp only
      rw [hlen]
      exact Nat.min_le_left _ _
  · intro s hs rt r hr
    have hsne : ¬s = "" := by
      intro h; rw [h] at hs; exact absurd hs (by decide)
    rw [MCPSearchClient.parse_item] at hr
    simp only [Option.orElse_none, Option.some_orElse, Option.getD_some,
      hsne, if_false] at hr
    cases hr
    refine ⟨rfl, ?_⟩
    show (strTake 200 s).length = 200
    rw [hlen, hs]
    omega

/-- Claim C6: an exception raised by the reasoning stream propagates out of
`ClaudeSearchAgent.search` with the original error detail preserved
(`except Exception ... raise`, src/claude_agent.py lines 509-517), so an
error outcome is never confused with a (always `.ok`) result outcome. -/
theorem search_propagates_stream_error (messages : List AgentMessage)
    (e : String) :
    ClaudeSearchAgent.search messages (some e) = .error e ∧
    ∀ s, ClaudeSearchAgent.search messages (some e) ≠ .ok s :=
  ⟨rfl, fun _ h => Except.noConfusion h⟩

/-- Does this block set `final_response` (is it a `TextBlock`)? -/
def blockHasText : ContentBlock → Bool
  | .textBlock _ => true
  | _ => false

/-- Does this message contain a `TextBlock` in its content? -/
def messageHasText : AgentMessage → Bool
  | .assistant content => content.any blockHasText
  | .result content => content.any blockHasText

/-- A tool-use block never touches `final_response`. -/
theorem processToolUse_final (st : AgentState) (n : String) :
    (processToolUse st n).final_response = st.final_response := by
  rw [processToolUse]
  split
  · rfl
  · split <;> rfl

/-- The tool-block loop never touches `final_response`. -/
theorem toolFold_final (blocks : List ContentBlock) :
    ∀ st : AgentState,
      (blocks.foldl toolStep st).final_response = st.final_response := by
  induction blocks with
  | nil => intro st; rfl
  | cons b bs ih =>
    intro st
    rw [List.foldl_cons, ih]
    cases b with
    | toolUse n => exact processToolUse_final st n
    | toolResult => rfl
    | textBlock t => rfl

/-- The text-block loop is the identity on content without text blocks. -/
theorem textFold_no_text (blocks : List ContentBlock) :
    ∀ st : AgentState, blocks.any blockHasText = false →
      blocks.foldl textStep st = st := by
  induction blocks with
  | nil => intro st _; rfl
  | cons b bs ih =>
    intro st h
    simp only [List.any_cons] at h
    cases b with
    | toolUse n =>
      simp only [blockHasText, Bool.false_or] at h
      rw [List.foldl_cons]
      exact ih st h
    | toolResult =>
      simp only [blockHasText, Bool.false_or] at h
      rw [List.foldl_cons]
      exact ih st h
    | textBlock t => simp [blockHasText] at h

/-- A message without text blocks leaves `final_response` unchanged. -/
theorem processMessage_final_no_text (st : AgentState) (m : AgentMessage)
    (h : messageHasText m = false) :
    (processMessage st m).final_response = st.final_response := by
  cases m with
  | assistant content =>
    rw [messageHasText] at h
    show (content.foldl textStep (content.foldl toolStep st)).final_response = _
    rw [textFold_no_text content _ h]
    exact toolFold_final content st
  | result content =>
    rw [messageHasText] at h
    show (content.foldl textStep st).final_response = _
    rw [textFold_no_text content st h]

/-- A stream with no text block anywhere leaves `final_response` empty. -/
theorem runAgent_final_no_text (messages : List AgentMessage)
    (h : messages.any messageHasText = false) :
    (runAgent messages).final_response = "" := by
  suffices h2 : ∀ st : AgentState, messages.any messageHasText = false →
      (messages.foldl processMessage st).final_response = st.final_response by
    exact h2 initialAgentState h
  clear h
  induction messages with
  | nil => intro st _; rfl
  | cons m ms ih =>
    intro st h
    simp only [List.any_cons, Bool.or_eq_false_iff] at h
    rw [List.foldl_cons, ih _ h.2, processMessage_final_no_text st m h.1]

/-- Claim C5: on a completed stream `ClaudeSearchAgent.search` returns a
non-empty string (`final_response or "검색 결과를 찾지 못했습니다."`,
src/claude_agent.py line 507); in particular a stream that never produced
a text block yields exactly the localized placeholder. -/
theorem search_nonempty_on_success (messages : List AgentMessage) :
    (∃ s, ClaudeSearchAgent.search messages none = .ok s ∧ s ≠ "") ∧
    (messages.any messageHasText = false →
      ClaudeSearchAgent.search messages none = .ok NO_RESULTS_MESSAGE) := by
  constructor
  · by_cases h : (runAgent messages).final_response = ""
    · refine ⟨NO_RESULTS_MESSAGE, ?_, by decide⟩
      show Except.ok (if (runAgent messages).final_response = ""
          then NO_RESULTS_MESSAGE else (runAgent messages).final_response) = _
      rw [if_pos h]
    · refine ⟨(runAgent messages).final_response, ?_, h⟩
      show Except.ok (if (runAgent messages).final_response = ""
          then NO_RESULTS_MESSAGE else (runAgent messages).final_response) = _
      rw [if_neg h]
  · intro h
    have hfin := runAgent_final_no_text messages h
    show Except.ok (if (runAgent messages).final_response = ""
        then NO_RESULTS_MESSAGE else (runAgent messages).final_response) = _
    rw [if_pos hfin]

/-- Witness for C5: a stream with only a tool call and no text yields the
localized placeholder, a non-empty string. -/
theorem search_nonempty_on_success_witness :
    (∃ s, ClaudeSearchAgent.search
        [.assistant [.toolUse "mcp__linear__linear_searchIssues"]] none =
          .ok s ∧ s ≠ "") ∧
    ClaudeSearchAgent.search
        [.assistant [.toolUse "mcp__linear__linear_searchIssues"]] none =
      .ok NO_RESULTS_MESSAGE :=
  ⟨(search_nonempty_on_success _).1, (search_nonempty_on_success _).2 (by decide)⟩

/-- Claim C7: a stream with tool invocations from source `A`, then source
`B`, then a final text answer emits exactly
`[thinking, searching(A, []), searching(B, [A]), consolidating([A, B])]`. -/
theorem progress_event_sequence (nA nB A B answer : String)
    (hA : extract_server_from_tool_name nA = some A)
    (hB : extract_server_from_tool_name nB = some B)
    (hAB : A ≠ B) :
    (runAgent [.assistant [.toolUse nA], .assistant [.toolUse nB],
        .result [.textBlock answer]]).progress =
      [{ status := "thinking" },
       { status := "searching", current_tool := some A,
         completed_tools := some [] },
       { status := "searching", current_tool := some B,
         completed_tools := some [A] },
       { status := "consolidating", completed_tools := some [A, B] }] := by
  have h1 : ¬(A = B) := hAB
  have h2 : ¬(B = A) := fun h => hAB h.symm
  simp [runAgent, initialAgentState, processMessage, toolStep, textStep,
    processToolUse, processTextBlock, markCompleted, hA, hB, h1, h2]

/-- Witness for C7 at concrete tool names for sources slack then notion. -/
theorem progress_event_sequence_witness :
    (runAgent [.assistant [.toolUse "mcp__slack__slack_list_channels"],
        .assistant [.toolUse "mcp__notion__API-post-search"],
        .result [.textBlock "summary"]]).progress =
      [{ status := "thinking" },
       { status := "searching", current_tool := some "slack",
         completed_tools := some [] },
       { status := "searching", current_tool := some "notion",
         completed_tools := some ["slack"] },
       { status := "consolidating", completed_tools := some ["slack", "notion"] }] :=
  progress_event_sequence "mcp__slack__slack_list_channels"
    "mcp__notion__API-post-search" "slack" "notion" "summary"
    (by decide) (by decide) (by decide)

/-- Every progress event already emitted carries a duplicate-free snapshot
that is a prefix of the current `completed_servers` accumulator. -/
def progressInv (completed : List String) (ps : List SearchProgress) : Prop :=
  ∀ p ∈ ps, ∀ l, p.completed_tools = some l → l.Nodup ∧ l <+: completed

/-- Loop invariant of `ClaudeSearchAgent.search`: the accumulator is
duplicate-free and every emitted snapshot is a prefix of it. -/
def stateInv (st : AgentState) : Prop :=
  st.completed_servers.Nodup ∧ progressInv st.completed_servers st.progress

/-- `markCompleted` preserves freedom from duplicates. -/
theorem markCompleted_nodup (l : List String) (c : String) (h : l.Nodup) :
    (markCompleted l c).Nodup := by
  by_cases hc : c ∈ l
  · rw [markCompleted, if_pos hc]; exact h
  · rw [markCompleted, if_neg hc]
    exact List.Nodup.append h (List.nodup_singleton c) (by simp [hc])

/-- `markCompleted` only ever appends. -/
theorem markCompleted_prefix_of (l : List String) (c : String) :
    l <+: markCompleted l c := by
  by_cases hc : c ∈ l
  · rw [markCompleted, if_pos hc]
  · rw [markCompleted, if_neg hc]; exact List.prefix_append l [c]

/-- Snapshots stay prefixes when the accumulator grows. -/
theorem progressInv_mono {c1 c2 : List String} (h12 : c1 <+: c2)
    {ps : List SearchProgress} (h : progressInv c1 ps) : progressInv c2 ps :=
  fun p hp l hl => ⟨(h p hp l hl).1, (h p hp l hl).2.trans h12⟩

/-- Emitting one more event preserves the snapshot invariant. -/
theorem progressInv_append (completed : List String)
    (ps : List SearchProgress) (h : progressInv completed ps)
    (p : SearchProgress)
    (hp : ∀ l, p.completed_tools = some l → l.Nodup ∧ l <+: completed) :
    progressInv completed (ps ++ [p]) := by
  intro q hq l hl
  rcases List.mem_append.mp hq with hq | hq
  · exact h q hq l hl
  · rw [List.mem_singleton] at hq
    subst hq
    exact hp l hl

/-- One tool-use block preserves the loop invariant. -/
theorem stateInv_processToolUse (st : AgentState) (n : String)
    (h : stateInv st) : stateInv (processToolUse st n) := by
  rw [processToolUse]
  cases hx : extract_server_from_tool_name n with
  | none => exact h
  | some server =>
    dsimp only
    by_cases hcur : st.current_server = some server
    · rw [if_pos hcur]; exact h
    · rw [if_neg hcur]
      cases hprev : st.current_server with
      | none =>
        exact ⟨h.1, progressInv_append _ _ h.2 _
          (fun l hl => by cases hl; exact ⟨h.1, List.prefix_refl _⟩)⟩
      | some prev =>
        have hnodup := markCompleted_nodup st.completed_servers prev h.1
        have hpre := markCompleted_prefix_of st.completed_servers prev
        exact ⟨hnodup, progressInv_append _ _ (progressInv_mono hpre h.2) _
          (fun l hl => by cases hl; exact ⟨hnodup, List.prefix_refl _⟩)⟩

/-- One text block preserves the loop invariant. -/
theorem stateInv_processTextBlock (st : AgentState) (t : String)
    (h : stateInv st) : stateInv (processTextBlock st t) := by
  rw [processTextBlock]
  cases hcur : st.current_server with
  | none => exact h
  | some cur =>
    have hnodup := markCompleted_nodup st.completed_servers cur h.1
    have hpre := markCompleted_prefix_of st.completed_servers cur
    exact ⟨hnodup, progressInv_append _ _ (progressInv_mono hpre h.2) _
      (fun l hl => by cases hl; exact ⟨hnodup, List.prefix_refl _⟩)⟩

/-- One step of the tool-block loop preserves the loop invariant. -/
theorem stateInv_toolStep (st : AgentState) (b : ContentBlock)
    (h : stateInv st) : stateInv (toolStep st b) := by
  cases b with
  | toolUse n => exact stateInv_processToolUse st n h
  | toolResult => exact h
  | textBlock t => exact h

/-- One step of the text-block loop preserves the loop invariant. -/
theorem stateInv_textStep (st : AgentState) (b : ContentBlock)
    (h : stateInv st) : stateInv (textStep st b) := by
  cases b with
  | toolUse n => exact h
  | toolResult => exact h
  | textBlock t => exact stateInv_processTextBlock st t h

/-- A fold over invariant-preserving steps preserves the loop invariant. -/
theorem stateInv_foldl {α : Type} (f : AgentState → α → AgentState)
    (hf : ∀ st a, stateInv st → stateInv (f st a)) :
    ∀ (xs : List α) (st : AgentState), stateInv st →
      stateInv (xs.foldl f st) := by
  intro xs
  induction xs with
  | nil => intro st h; exact h
  | cons x xs ih => intro st h; exact ih _ (hf st x h)

/-- Processing one message preserves the loop invariant. -/
theorem stateInv_processMessage (st : AgentState) (m : AgentMessage)
    (h : stateInv st) : stateInv (processMessage st m) := by
  cases m with
  | assistant content =>
    exact stateInv_foldl textStep stateInv_textStep content _
      (stateInv_foldl toolStep stateInv_toolStep content st h)
  | result content =>
    exact stateInv_foldl textStep stateInv_textStep content st h

/-- The loop invariant holds for the whole processed stream. -/
theorem stateInv_runAgent (messages : List AgentMessage) :
    stateInv (runAgent messages) := by
  refine stateInv_foldl processMessage stateInv_processMessage messages
    initialAgentState ⟨List.nodup_nil, ?_⟩
  intro p hp l hl
  simp only [initialAgentState, List.mem_singleton] at hp
  subst hp
  exact Option.noConfusion hl

/-- Claim C10: every `completed_tools` snapshot in every emitted
`SearchProgress` is duplicate-free and is a prefix of the final
`completed_servers` accumulator — servers appear exactly once, in the
order they were first marked completed, and each emission carries its own
snapshot of the list. -/
theorem progress_completed_tools_nodup_ordered (messages : List AgentMessage) :
    ∀ p ∈ (runAgent messages).progress, ∀ l, p.completed_tools = some l →
      l.Nodup ∧ l <+: (runAgent messages).completed_servers :=
  (stateInv_runAgent messages).2

/-- Witness for C10 at a concrete two-source stream: the snapshot of the
second `searching` event is duplicate-free and a prefix of the final
accumulator. -/
theorem progress_completed_tools_nodup_ordered_witness :
    List.Nodup ["slack"] ∧ ["slack"] <+:
      (runAgent [.assistant [.toolUse "mcp__slack__slack_get_channel_history"],
          .assistant [.toolUse "mcp__github__search_code"]]).completed_servers :=
  progress_completed_tools_nodup_ordered
    [.assistant [.toolUse "mcp__slack__slack_get_channel_history"],
     .assistant [.toolUse "mcp__github__search_code"]]
    { status := "searching", current_tool := some "github",
      completed_tools := some ["slack"] }
    (by decide) ["slack"] rfl

/-- The parsed result of the 300-character scenario. -/
def longSnippetResult : SearchResult :=
  { source := .NOTION, title := "Untitled", url := "",
    snippet := String.mk (List.replicate 200 'a') }

set_option maxRecDepth 8192 in
/-- Witness for the amended C8 at the 300-character scenario input. -/
theorem snippet_capped_at_200_witness :
    longSnippetResult.snippet.length ≤ 200 ∧
    (longSnippetResult.snippet =
        strTake 200 (String.mk (List.replicate 300 'a')) ∧
      longSnippetResult.snippet.length = 200) :=
  ⟨(snippet_capped_at_200).1 .NOTION longSnippetItem longSnippetResult
      (by decide),
   (snippet_capped_at_200).2.2 (String.mk (List.replicate 300 'a'))
      (by decide) .NOTION longSnippetResult (by decide)⟩
